import Mathlib

/-!
Verification of the coordination core of `sl-shared-assets`: the
`ProcessingTracker` ownership-gated state machine
(`data_classes/processing_data.py`), the `SessionLock` exclusive-access lock
(`data_classes/session_data.py`), and the staged `ProcessingPipeline`
executor (`server/pipelines.py`).

The Python classes wrap a `.yaml` file: every operation first acquires a file
lock, reloads the persisted snapshot into the instance attributes
(`_load_state`), mutates them, and persists them back (`_save_state`).  Since
all operations on one tracker are linearized through the exclusive file lock,
each operation is modelled as a pure transition on a pair of the in-memory
attribute mirror and the persisted file content (`Option` — `none` models an
absent file).  An operation that raises `RuntimeError` (via `console.error`)
is modelled by the `raised` result constructor, carrying the state of the
world at the moment the exception propagates.
-/

/-- The state fields persisted by `ProcessingTracker` in its `.yaml` file:
`_complete`, `_encountered_error`, `_running`, `_manager_id`, `_job_count`
and `_completed_jobs`. -/
structure TrackerState where
  complete : Bool
  encounteredError : Bool
  running : Bool
  managerId : Int
  jobCount : Int
  completedJobs : Int
deriving DecidableEq

/-- Default field values of the `ProcessingTracker` dataclass:
`_complete = False`, `_encountered_error = False`, `_running = False`,
`_manager_id = -1`, `_job_count = 1`, `_completed_jobs = 0`. -/
def defaultTrackerState : TrackerState :=
  { complete := false
    encounteredError := false
    running := false
    managerId := -1
    jobCount := 1
    completedJobs := 0 }

/-- A `ProcessingTracker` instance together with the persisted world it
wraps: `mem` is the in-memory attribute mirror, `file` the content of the
tracker `.yaml` file (`none` when the file does not exist). -/
structure ProcessingTracker where
  mem : TrackerState
  file : Option TrackerState
deriving DecidableEq

namespace ProcessingTracker

/-- Model of `ProcessingTracker._load_state`: if the file exists, copy the
persisted snapshot into the instance attributes; otherwise persist the
current attribute values (this is `_save_state` called on the miss path). -/
def loadState (t : ProcessingTracker) : ProcessingTracker :=
  match t.file with
  | some s => { t with mem := s }
  | none => { t with file := some t.mem }

/-- Model of `ProcessingTracker._save_state`: dump the current attribute
values to the `.yaml` file. -/
def saveState (t : ProcessingTracker) : ProcessingTracker :=
  { t with file := some t.mem }

/-- Outcome of one tracker operation: `ok` is a normal return, `raised` is a
`RuntimeError` propagating out of the method; both carry the state of the
instance and file at that point. -/
inductive Result where
  | ok (t : ProcessingTracker)
  | raised (t : ProcessingTracker)
deriving DecidableEq

/-- The state of the world after an operation, whether it returned or
raised. -/
def Result.tracker : Result → ProcessingTracker
  | .ok t => t
  | .raised t => t

/-- Model of `ProcessingTracker.start`: reload; raise if the pipeline runs
under a different manager; no-op if it runs under the same manager;
otherwise lock the pipeline for this manager, reset the outcome flags and
counters, and persist. -/
def start (t0 : ProcessingTracker) (managerId : Int) (jobCount : Int) : Result :=
  let t := t0.loadState
  if t.mem.running = true ∧ managerId ≠ t.mem.managerId then
    .raised t
  else if t.mem.running = true ∧ managerId = t.mem.managerId then
    .ok t
  else
    .ok (saveState { t with mem :=
      { complete := false
        encounteredError := false
        running := true
        managerId := managerId
        jobCount := jobCount
        completedJobs := 0 } })

/-- Model of `ProcessingTracker.error`: reload; no-op when not running;
raise when the caller is not the active manager; otherwise record the error,
clear running state and owner, and persist. -/
def error (t0 : ProcessingTracker) (managerId : Int) : Result :=
  let t := t0.loadState
  if t.mem.running = false then
    .ok t
  else if managerId ≠ t.mem.managerId then
    .raised t
  else
    .ok (saveState { t with mem :=
      { t.mem with
        running := false
        managerId := -1
        complete := false
        encounteredError := true } })

/-- Model of `ProcessingTracker.stop`: reload; no-op when not running; raise
when the caller is not the active manager; otherwise increment the
completed-job counter, and if it reached the job count, finalize the run
(clear running state and owner, set the completed flag); persist either
way. -/
def stop (t0 : ProcessingTracker) (managerId : Int) : Result :=
  let t := t0.loadState
  if t.mem.running = false then
    .ok t
  else if managerId ≠ t.mem.managerId then
    .raised t
  else
    let cj := t.mem.completedJobs + 1
    if t.mem.jobCount ≤ cj then
      .ok (saveState { t with mem :=
        { t.mem with
          completedJobs := cj
          running := false
          managerId := -1
          complete := true
          encounteredError := false } })
    else
      .ok (saveState { t with mem := { t.mem with completedJobs := cj } })

/-- Model of `ProcessingTracker.abort`: reload, then unconditionally reset
every state field to its default value and persist; neither the completed
flag nor the error flag is set. -/
def abort (t0 : ProcessingTracker) : Result :=
  let t := t0.loadState
  .ok (saveState { t with mem :=
    { running := false
      managerId := -1
      completedJobs := 0
      jobCount := 1
      complete := false
      encounteredError := false } })

/-- Model of the `ProcessingTracker.is_complete` property: reload and return
the `_complete` flag, together with the refreshed instance. -/
def isComplete (t0 : ProcessingTracker) : Bool × ProcessingTracker :=
  let t := t0.loadState
  (t.mem.complete, t)

/-- Model of the `ProcessingTracker.encountered_error` property: reload and
return the `_encountered_error` flag, together with the refreshed
instance. -/
def encounteredError (t0 : ProcessingTracker) : Bool × ProcessingTracker :=
  let t := t0.loadState
  (t.mem.encounteredError, t)

/-- Model of the `ProcessingTracker.is_running` property: reload and return
the `_running` flag, together with the refreshed instance. -/
def isRunning (t0 : ProcessingTracker) : Bool × ProcessingTracker :=
  let t := t0.loadState
  (t.mem.running, t)

end ProcessingTracker

/-- A `SessionLock` instance together with the persisted world it wraps:
`mem` mirrors the `_manager_id` attribute (`-1` means unlocked), `file` the
content of the `session_lock.yaml` file. -/
structure SessionLock where
  mem : Int
  file : Option Int
deriving DecidableEq

namespace SessionLock

/-- Model of `SessionLock._load_state`: if the file exists, copy the
persisted owner id into the instance; otherwise persist the current
value. -/
def loadState (t : SessionLock) : SessionLock :=
  match t.file with
  | some s => { t with mem := s }
  | none => { t with file := some t.mem }

/-- Model of `SessionLock._save_state`. -/
def saveState (t : SessionLock) : SessionLock :=
  { t with file := some t.mem }

/-- Outcome of one lock operation, as for the tracker. -/
inductive Result where
  | ok (t : SessionLock)
  | raised (t : SessionLock)
deriving DecidableEq

/-- Model of `SessionLock.acquire`: reload; raise when the lock is held by a
different owner; otherwise claim (or idempotently re-claim) the lock and
persist. -/
def acquire (t0 : SessionLock) (managerId : Int) : Result :=
  let t := t0.loadState
  if t.mem ≠ -1 ∧ t.mem ≠ managerId then
    .raised t
  else
    .ok (saveState { t with mem := managerId })

/-- Model of `SessionLock.release`: reload; raise when the stored owner id
differs from the caller's id; otherwise persist the unlocked value `-1`. -/
def release (t0 : SessionLock) (managerId : Int) : Result :=
  let t := t0.loadState
  if t.mem ≠ managerId then
    .raised t
  else
    .ok (saveState { t with mem := -1 })

/-- Model of `SessionLock.force_release`: unconditionally persist the
unlocked value `-1` without reloading first. -/
def forceRelease (t0 : SessionLock) : Result :=
  .ok (saveState { t0 with mem := -1 })

end SessionLock

/-- The pipeline status codes of the `ProcessingStatus` enumeration in
`server/pipelines.py`. -/
inductive ProcessingStatus where
  | running
  | succeeded
  | failed
  | aborted
deriving DecidableEq

/-- Observable interactions of `ProcessingPipeline.runtime_cycle` with the
remote server and the local filesystem: submitting a job, pulling the remote
tracker file, removing the local temporary tracker directory, and removing a
remote (job log) directory. -/
inductive ServerAction where
  | submitJob (job : Nat)
  | pullTracker
  | removeLocalTemp
  | removeRemote (directory : Nat)
deriving DecidableEq

/-- The state of a `ProcessingPipeline` instance: the `jobs` dictionary
mapping each stage code to the `(Job, Path)` pairs of that stage (modelled
as an association list in insertion order, with jobs and remote working
directories identified by numbers), the `keep_job_logs` setting, the
`pipeline_status` field, and the `_pipeline_stage` cursor. -/
structure ProcessingPipeline where
  jobs : List (Nat × List (Nat × Nat))
  keepJobLogs : Bool
  pipelineStatus : ProcessingStatus
  pipelineStage : Nat
deriving DecidableEq

/-- The behavior of the remote server as observed during one
`runtime_cycle` call: `jobComplete` is the `Server.job_complete` poll for
each job, and `tracker` is the snapshot of the pulled processing tracker
file, whose `_encountered_error`, `_complete` and `_running` fields are what
the `ProcessingTracker` properties return on the pulled copy. -/
structure ServerEnv where
  jobComplete : Nat → Bool
  tracker : TrackerState

/-- Model of `ProcessingPipeline._submit_jobs`: submit every job of the
given stage entry list, in order. -/
def submitActions (entries : List (Nat × Nat)) : List ServerAction :=
  entries.map (fun e => ServerAction.submitJob e.1)

/-- Remote job log removal in the success branch of `runtime_cycle`: for
every stage in the `jobs` dictionary, remove the remote working directory of
every job of that stage. -/
def removeAllLogActions (jobs : List (Nat × List (Nat × Nat))) : List ServerAction :=
  (jobs.map (fun stage => stage.2.map (fun e => ServerAction.removeRemote e.2))).flatten

/-- Model of `ProcessingPipeline.runtime_cycle`.  On the first call
(stage cursor `0`) it increments the cursor and submits stage 1's jobs, and
then — without returning — proceeds to the polling phase.  If some job of
the current stage is not yet complete on the scheduler, it returns.
Otherwise it pulls the remote tracker file and dispatches on its flags:
error → status `failed`; complete → status `succeeded` and, unless
`keep_job_logs` is set, removal of every stage's remote log directories;
running → increment the cursor and submit the next stage's jobs; otherwise
status `aborted`.  A missing key in the `jobs` dictionary (a `KeyError` in
Python) is modelled by `none`. -/
def runtimeCycle (p0 : ProcessingPipeline) (env : ServerEnv) :
    Option (ProcessingPipeline × List ServerAction) := do
  let (p, acts0) ←
    if p0.pipelineStage = 0 then do
      let p := { p0 with pipelineStage := p0.pipelineStage + 1 }
      let entries ← p.jobs.lookup p.pipelineStage
      pure (p, submitActions entries)
    else
      pure (p0, ([] : List ServerAction))
  let entries ← p.jobs.lookup p.pipelineStage
  if entries.any (fun e => !env.jobComplete e.1) then
    pure (p, acts0)
  else
    let acts := acts0 ++ [ServerAction.pullTracker]
    if env.tracker.encounteredError = true then
      pure ({ p with pipelineStatus := .failed }, acts ++ [ServerAction.removeLocalTemp])
    else if env.tracker.complete = true then
      let p1 := { p with pipelineStatus := .succeeded }
      let acts := acts ++ [ServerAction.removeLocalTemp]
      if p1.keepJobLogs = false then
        pure (p1, acts ++ removeAllLogActions p1.jobs)
      else
        pure (p1, acts)
    else if env.tracker.running = true then
      let p1 := { p with pipelineStage := p.pipelineStage + 1 }
      let nextEntries ← p1.jobs.lookup p1.pipelineStage
      pure (p1, acts ++ submitActions nextEntries)
    else
      pure ({ p with pipelineStatus := .aborted }, acts)

/-- Iterated `runtime_cycle` calls, each observing its own server
behavior; collects all observable actions in order. -/
def runtimeCycles : ProcessingPipeline → List ServerEnv → Option (ProcessingPipeline × List ServerAction)
  | p, [] => some (p, [])
  | p, env :: rest => do
    let (p1, acts1) ← runtimeCycle p env
    let (p2, acts2) ← runtimeCycles p1 rest
    pure (p2, acts1 ++ acts2)

/-- One operation or query of a `ProcessingTracker` instance, viewed as a
transition on the instance-and-file world (covering both returning and
raising outcomes). -/
inductive TrackerStep : ProcessingTracker → ProcessingTracker → Prop where
  | start (t : ProcessingTracker) (M n : Int) :
      TrackerStep t (ProcessingTracker.start t M n).tracker
  | error (t : ProcessingTracker) (M : Int) :
      TrackerStep t (ProcessingTracker.error t M).tracker
  | stop (t : ProcessingTracker) (M : Int) :
      TrackerStep t (ProcessingTracker.stop t M).tracker
  | abort (t : ProcessingTracker) :
      TrackerStep t (ProcessingTracker.abort t).tracker
  | isComplete (t : ProcessingTracker) :
      TrackerStep t (ProcessingTracker.isComplete t).2
  | encounteredError (t : ProcessingTracker) :
      TrackerStep t (ProcessingTracker.encounteredError t).2
  | isRunning (t : ProcessingTracker) :
      TrackerStep t (ProcessingTracker.isRunning t).2

/-- Reachability of one tracker world from another through any sequence of
tracker operations and queries. -/
inductive TrackerReach : ProcessingTracker → ProcessingTracker → Prop where
  | refl (t : ProcessingTracker) : TrackerReach t t
  | tail {t u v : ProcessingTracker} :
      TrackerReach t u → TrackerStep u v → TrackerReach t v

/-- One step within a single tracker run owned by manager `M`: a `stop(M)`
or `error(M)` call (returning or raising) or a query observation. -/
inductive RunStep (M : Int) : ProcessingTracker → ProcessingTracker → Prop where
  | stop (t : ProcessingTracker) :
      RunStep M t (ProcessingTracker.stop t M).tracker
  | error (t : ProcessingTracker) :
      RunStep M t (ProcessingTracker.error t M).tracker
  | isComplete (t : ProcessingTracker) :
      RunStep M t (ProcessingTracker.isComplete t).2
  | encounteredError (t : ProcessingTracker) :
      RunStep M t (ProcessingTracker.encounteredError t).2
  | isRunning (t : ProcessingTracker) :
      RunStep M t (ProcessingTracker.isRunning t).2

/-- Reachability within one tracker run owned by manager `M`. -/
inductive RunReach (M : Int) : ProcessingTracker → ProcessingTracker → Prop where
  | refl (t : ProcessingTracker) : RunReach M t t
  | tail {t u v : ProcessingTracker} :
      RunReach M t u → RunStep M u v → RunReach M t v

/-- Invariant of a snapshot within one run owned by manager `M` with job
count `n`: the stored job count is `n`, the completed-job counter is bounded
by `n`, the completed flag holds exactly at `n`, and while running the owner
is `M`, the run is not yet complete, and the counter is strictly below
`n`. -/
def RunInv (M n : Int) (s : TrackerState) : Prop :=
  s.jobCount = n ∧ s.completedJobs ≤ n ∧ (s.complete = true ↔ s.completedJobs = n) ∧
    (s.running = true → s.managerId = M ∧ s.complete = false ∧ s.completedJobs < n)

theorem loadState_file (t : ProcessingTracker) :
    t.loadState.file = some t.loadState.mem := by
  cases t with
  | mk mem file => cases file <;> rfl

theorem loadState_eq_self {t : ProcessingTracker} (h : t.file = some t.mem) :
    t.loadState = t := by
  cases t with
  | mk m f =>
      replace h : f = some m := h
      subst h
      rfl

theorem tracker_step_sync {u v : ProcessingTracker} (h : TrackerStep u v) :
    v.file = some v.mem := by
  cases h with
  | start M n =>
      simp only [ProcessingTracker.start]
      split
      · exact loadState_file u
      · split
        · exact loadState_file u
        · rfl
  | error M =>
      simp only [ProcessingTracker.error]
      split
      · exact loadState_file u
      · split
        · exact loadState_file u
        · rfl
  | stop M =>
      simp only [ProcessingTracker.stop]
      split
      · exact loadState_file u
      · split
        · exact loadState_file u
        · split
          · rfl
          · rfl
  | abort => rfl
  | isComplete => exact loadState_file u
  | encounteredError => exact loadState_file u
  | isRunning => exact loadState_file u

theorem start_ok_running {t0 t1 : ProcessingTracker} {M n : Int}
    (h : ProcessingTracker.start t0 M n = .ok t1) :
    t1.mem.running = true ∧ t1.mem.managerId = M ∧ t1.file = some t1.mem := by
  simp only [ProcessingTracker.start] at h
  split at h
  · simp at h
  · next hcond =>
      split at h
      · next hcond2 =>
          cases h
          exact ⟨hcond2.1, hcond2.2.symm, loadState_file t0⟩
      · cases h
        exact ⟨rfl, rfl, rfl⟩

/-- C1: if the persisted tracker state shows the pipeline running under
manager `A`, then `start` called by any different manager `B` raises the
ownership-conflict `RuntimeError` and leaves the persisted tracker state
unchanged. -/
theorem claim_C1 (t : ProcessingTracker) (s : TrackerState) (A B m : Int)
    (hfile : t.file = some s) (hrun : s.running = true) (howner : s.managerId = A)
    (hne : A ≠ B) :
    ProcessingTracker.start t B m =
      .raised { mem := s, file := some s } ∧
    ({ mem := s, file := some s } : ProcessingTracker).file = t.file := by
  have hBA : B ≠ A := fun hba => hne hba.symm
  constructor
  · simp [ProcessingTracker.start, ProcessingTracker.loadState, hfile, hrun, howner, hBA]
  · rw [hfile]

/-- Witness for C1 at a concrete tracker running under manager `5` and a
competing `start` from manager `7`. -/
theorem claim_C1_witness :
    ProcessingTracker.start
      { mem := { complete := false, encounteredError := false, running := true,
                 managerId := 5, jobCount := 2, completedJobs := 0 },
        file := some { complete := false, encounteredError := false, running := true,
                       managerId := 5, jobCount := 2, completedJobs := 0 } } 7 4 =
      .raised
        { mem := { complete := false, encounteredError := false, running := true,
                   managerId := 5, jobCount := 2, completedJobs := 0 },
          file := some { complete := false, encounteredError := false, running := true,
                         managerId := 5, jobCount := 2, completedJobs := 0 } } :=
  (claim_C1 _ _ 5 7 4 rfl rfl rfl (by decide)).1

/-- C4: in every world reachable from a freshly constructed
`ProcessingTracker` instance (whose attributes hold the dataclass defaults)
through any sequence of tracker operations and queries, if the tracker
`.yaml` file does not exist then the load step synthesizes the all-default
snapshot — running `false`, complete `false`, error `false`, owner `-1`,
job count `1`, completed jobs `0` — and persists it to the file. -/
theorem claim_C4 (t0 t : ProcessingTracker)
    (hinit : t0.mem = defaultTrackerState) (hreach : TrackerReach t0 t)
    (habsent : t.file = none) :
    t.loadState = { mem := defaultTrackerState, file := some defaultTrackerState } := by
  revert habsent
  induction hreach with
  | refl =>
      intro habsent
      unfold ProcessingTracker.loadState
      rw [habsent, hinit]
  | tail hr hs ih =>
      intro habsent
      rw [tracker_step_sync hs] at habsent
      exact absurd habsent (by simp)

/-- Witness for C4 at a freshly constructed instance whose tracker file is
absent. -/
theorem claim_C4_witness :
    ProcessingTracker.loadState { mem := defaultTrackerState, file := none } =
      { mem := defaultTrackerState, file := some defaultTrackerState } :=
  claim_C4 { mem := defaultTrackerState, file := none } _ rfl (TrackerReach.refl _) rfl

/-- C5: calling `start` for a pipeline already running under the same
manager is a no-op — it returns without raising and the persisted state
(including the stored job count and completed-job counter) is exactly the
state before the call; in particular `start(5, 3)` twice in a row equals
`start(5, 3)` once. -/
theorem claim_C5 :
    (∀ (t : ProcessingTracker) (s : TrackerState) (M k : Int),
        t.file = some s → s.running = true → s.managerId = M →
        ProcessingTracker.start t M k = .ok { mem := s, file := some s }) ∧
    (∀ t0 t1 : ProcessingTracker,
        ProcessingTracker.start t0 5 3 = .ok t1 →
        ProcessingTracker.start t1 5 3 = .ok t1) := by
  constructor
  · intro t s M k hfile hrun howner
    simp [ProcessingTracker.start, ProcessingTracker.loadState, hfile, hrun, howner]
  · intro t0 t1 h
    obtain ⟨hrun, howner, hfile⟩ := start_ok_running h
    have hload : t1.loadState = t1 := loadState_eq_self hfile
    simp [ProcessingTracker.start, hload, hrun, howner]

/-- Witness for C5: a concrete redundant `start(5, 3)` on a tracker already
running under manager `5` with job count `3` and one completed job. -/
theorem claim_C5_witness :
    ProcessingTracker.start
      { mem := { complete := false, encounteredError := false, running := true,
                 managerId := 5, jobCount := 3, completedJobs := 1 },
        file := some { complete := false, encounteredError := false, running := true,
                       managerId := 5, jobCount := 3, completedJobs := 1 } } 5 3 =
      .ok
        { mem := { complete := false, encounteredError := false, running := true,
                   managerId := 5, jobCount := 3, completedJobs := 1 },
          file := some { complete := false, encounteredError := false, running := true,
                         managerId := 5, jobCount := 3, completedJobs := 1 } } :=
  claim_C5.1 _ _ 5 3 rfl rfl rfl

/-- C8: from every tracker world, `abort` (which takes no manager
identifier) returns without raising and persists the default idle state:
running `false`, owner `-1`, job count `1`, completed jobs `0`, with
neither the completed flag nor the error flag set. -/
theorem claim_C8 (t : ProcessingTracker) :
    ProcessingTracker.abort t =
      .ok { mem := defaultTrackerState, file := some defaultTrackerState } ∧
    defaultTrackerState.running = false ∧
    defaultTrackerState.managerId = -1 ∧
    defaultTrackerState.jobCount = 1 ∧
    defaultTrackerState.completedJobs = 0 ∧
    defaultTrackerState.complete = false ∧
    defaultTrackerState.encounteredError = false :=
  ⟨rfl, rfl, rfl, rfl, rfl, rfl, rfl⟩

/-- C9: `release(M)` on a session lock whose persisted owner value is `s`
succeeds and persists the unlocked value `-1` exactly when `s = M`;
otherwise it raises the ownership-violation `RuntimeError` and leaves the
persisted state unchanged. -/
theorem claim_C9 (t : SessionLock) (s M : Int) (hfile : t.file = some s) :
    (M = s → SessionLock.release t M = .ok { mem := -1, file := some (-1) }) ∧
    (M ≠ s →
      SessionLock.release t M = .raised { mem := s, file := some s } ∧
      ({ mem := s, file := some s } : SessionLock).file = t.file) := by
  constructor
  · intro hM
    subst hM
    simp [SessionLock.release, SessionLock.loadState, SessionLock.saveState, hfile]
  · intro hM
    have hsM : s ≠ M := fun hsm => hM hsm.symm
    constructor
    · simp [SessionLock.release, SessionLock.loadState, hfile, hsM]
    · rw [hfile]

/-- Witness for C9: a lock owned by manager `9` is released by `9`
(persisting `-1`) and a release attempt by manager `4` raises with the
persisted owner unchanged. -/
theorem claim_C9_witness :
    SessionLock.release { mem := 9, file := some 9 } 9 =
      .ok { mem := -1, file := some (-1) } ∧
    SessionLock.release { mem := 9, file := some 9 } 4 =
      .raised { mem := 9, file := some 9 } :=
  ⟨(claim_C9 _ 9 9 rfl).1 rfl, ((claim_C9 _ 9 4 rfl).2 (by decide)).1⟩

theorem stop_shape_noop {t : ProcessingTracker} (M : Int) (hload : t.loadState = t)
    (h : t.mem.running = false) : ProcessingTracker.stop t M = .ok t := by
  simp [ProcessingTracker.stop, hload, h]

theorem stop_shape_raised {t : ProcessingTracker} (M : Int) (hload : t.loadState = t)
    (hr : t.mem.running = true) (hM : M ≠ t.mem.managerId) :
    ProcessingTracker.stop t M = .raised t := by
  simp [ProcessingTracker.stop, hload, hr, hM]

theorem stop_shape_final {t : ProcessingTracker} (M : Int) (hload : t.loadState = t)
    (hr : t.mem.running = true) (hM : M = t.mem.managerId)
    (hfin : t.mem.jobCount ≤ t.mem.completedJobs + 1) :
    ProcessingTracker.stop t M =
      .ok { mem := { t.mem with
                     completedJobs := t.mem.completedJobs + 1
                     running := false
                     managerId := -1
                     complete := true
                     encounteredError := false },
            file := some { t.mem with
                           completedJobs := t.mem.completedJobs + 1
                           running := false
                           managerId := -1
                           complete := true
                           encounteredError := false } } := by
  simp [ProcessingTracker.stop, ProcessingTracker.saveState, hload, hr, hM, hfin]

theorem stop_shape_mid {t : ProcessingTracker} (M : Int) (hload : t.loadState = t)
    (hr : t.mem.running = true) (hM : M = t.mem.managerId)
    (hnfin : ¬ t.mem.jobCount ≤ t.mem.completedJobs + 1) :
    ProcessingTracker.stop t M =
      .ok { mem := { t.mem with completedJobs := t.mem.completedJobs + 1 },
            file := some { t.mem with completedJobs := t.mem.completedJobs + 1 } } := by
  simp [ProcessingTracker.stop, ProcessingTracker.saveState, hload, hr, hM, hnfin]

theorem error_shape_noop {t : ProcessingTracker} (M : Int) (hload : t.loadState = t)
    (h : t.mem.running = false) : ProcessingTracker.error t M = .ok t := by
  simp [ProcessingTracker.error, hload, h]

theorem error_shape_raised {t : ProcessingTracker} (M : Int) (hload : t.loadState = t)
    (hr : t.mem.running = true) (hM : M ≠ t.mem.managerId) :
    ProcessingTracker.error t M = .raised t := by
  simp [ProcessingTracker.error, hload, hr, hM]

theorem error_shape_ok {t : ProcessingTracker} (M : Int) (hload : t.loadState = t)
    (hr : t.mem.running = true) (hM : M = t.mem.managerId) :
    ProcessingTracker.error t M =
      .ok { mem := { t.mem with
                     running := false
                     managerId := -1
                     complete := false
                     encounteredError := true },
            file := some { t.mem with
                           running := false
                           managerId := -1
                           complete := false
                           encounteredError := true } } := by
  simp [ProcessingTracker.error, ProcessingTracker.saveState, hload, hr, hM]

theorem result_tracker_ok (t : ProcessingTracker) :
    (ProcessingTracker.Result.ok t).tracker = t := rfl

theorem result_tracker_raised (t : ProcessingTracker) :
    (ProcessingTracker.Result.raised t).tracker = t := rfl

theorem runStep_preserves {M n : Int} {t t' : ProcessingTracker}
    (hsync : t.file = some t.mem) (hinv : RunInv M n t.mem) (hs : RunStep M t t') :
    t'.file = some t'.mem ∧ RunInv M n t'.mem := by
  have hload : t.loadState = t := loadState_eq_self hsync
  obtain ⟨hjc, hle, hiff, hrun⟩ := hinv
  cases hs with
  | stop =>
      by_cases hr : t.mem.running = true
      · obtain ⟨hmid, hcomp, hlt⟩ := hrun hr
        by_cases hfin : t.mem.jobCount ≤ t.mem.completedJobs + 1
        · rw [stop_shape_final M hload hr hmid.symm hfin]
          rw [result_tracker_ok]
          unfold RunInv
          dsimp only
          exact ⟨rfl, hjc, by omega, ⟨fun _ => by omega, fun _ => rfl⟩,
            fun hR => by simp at hR⟩
        · rw [stop_shape_mid M hload hr hmid.symm hfin]
          rw [result_tracker_ok]
          unfold RunInv
          dsimp only
          refine ⟨rfl, hjc, by omega, ?_, fun _ => ⟨hmid, hcomp, by omega⟩⟩
          rw [hcomp]
          simp only [Bool.false_eq_true, false_iff]
          omega
      · have hrf : t.mem.running = false := by simpa using hr
        rw [stop_shape_noop M hload hrf, result_tracker_ok]
        exact ⟨hsync, hjc, hle, hiff, hrun⟩
  | error =>
      by_cases hr : t.mem.running = true
      · obtain ⟨hmid, hcomp, hlt⟩ := hrun hr
        rw [error_shape_ok M hload hr hmid.symm]
        rw [result_tracker_ok]
        unfold RunInv
        dsimp only
        refine ⟨rfl, hjc, hle, ?_, fun hR => by simp at hR⟩
        simp only [Bool.false_eq_true, false_iff]
        omega
      · have hrf : t.mem.running = false := by simpa using hr
        rw [error_shape_noop M hload hrf, result_tracker_ok]
        exact ⟨hsync, hjc, hle, hiff, hrun⟩
  | isComplete =>
      simp only [ProcessingTracker.isComplete, hload]
      exact ⟨hsync, hjc, hle, hiff, hrun⟩
  | encounteredError =>
      simp only [ProcessingTracker.encounteredError, hload]
      exact ⟨hsync, hjc, hle, hiff, hrun⟩
  | isRunning =>
      simp only [ProcessingTracker.isRunning, hload]
      exact ⟨hsync, hjc, hle, hiff, hrun⟩

theorem runStep_mono {M : Int} {t t' : ProcessingTracker}
    (hsync : t.file = some t.mem) (hs : RunStep M t t') :
    t.mem.completedJobs ≤ t'.mem.completedJobs := by
  have hload : t.loadState = t := loadState_eq_self hsync
  cases hs with
  | stop =>
      by_cases hr : t.mem.running = true
      · by_cases hM : M = t.mem.managerId
        · by_cases hfin : t.mem.jobCount ≤ t.mem.completedJobs + 1
          · rw [stop_shape_final M hload hr hM hfin, result_tracker_ok]
            dsimp only
            omega
          · rw [stop_shape_mid M hload hr hM hfin, result_tracker_ok]
            dsimp only
            omega
        · rw [stop_shape_raised M hload hr hM, result_tracker_raised]
      · have hrf : t.mem.running = false := by simpa using hr
        rw [stop_shape_noop M hload hrf, result_tracker_ok]
  | error =>
      by_cases hr : t.mem.running = true
      · by_cases hM : M = t.mem.managerId
        · rw [error_shape_ok M hload hr hM, result_tracker_ok]
        · rw [error_shape_raised M hload hr hM, result_tracker_raised]
      · have hrf : t.mem.running = false := by simpa using hr
        rw [error_shape_noop M hload hrf, result_tracker_ok]
  | isComplete => simp [ProcessingTracker.isComplete, hload]
  | encounteredError => simp [ProcessingTracker.encounteredError, hload]
  | isRunning => simp [ProcessingTracker.isRunning, hload]

theorem start_fresh_state {t0 t1 : ProcessingTracker} {M n : Int}
    (h : ProcessingTracker.start t0 M n = .ok t1)
    (hfresh : t0.loadState.mem.running = false) :
    t1 = { mem := { complete := false, encounteredError := false, running := true,
                    managerId := M, jobCount := n, completedJobs := 0 },
           file := some { complete := false, encounteredError := false, running := true,
                          managerId := M, jobCount := n, completedJobs := 0 } } := by
  have hc1 : ¬ (t0.loadState.mem.running = true ∧ M ≠ t0.loadState.mem.managerId) := by
    simp [hfresh]
  have hc2 : ¬ (t0.loadState.mem.running = true ∧ M = t0.loadState.mem.managerId) := by
    simp [hfresh]
  simp only [ProcessingTracker.start] at h
  rw [if_neg hc1, if_neg hc2] at h
  cases h
  rfl

/-- C2 (amended: the run's job count must be positive, `1 ≤ n`): within one
tracker run that begins with a state-changing `start(M, n)`, across every
sequence of `stop(M)` and `error(M)` calls and query observations, the
persisted snapshot keeps job count `n`, the persisted completed-jobs
counter never decreases and always satisfies `completedJobs ≤ n`,
`is_complete` returns `true` exactly when `completedJobs = n`, and each
`stop(M)` issued while the run is running increments the counter by one and
finalizes the run (sets the completed flag) precisely on reaching the job
count.  The unamended claim, quantified over every `n`, fails at `n = 0`
(see the counterexample theorem). -/
theorem claim_C2 (M n : Int) (hn : 1 ≤ n) (t0 t1 : ProcessingTracker)
    (hstart : ProcessingTracker.start t0 M n = .ok t1)
    (hfresh : t0.loadState.mem.running = false) :
    ∀ t, RunReach M t1 t →
      (t.file = some t.mem ∧ RunInv M n t.mem ∧
        ((ProcessingTracker.isComplete t).1 = true ↔ t.mem.completedJobs = n)) ∧
      (∀ t', RunStep M t t' → t.mem.completedJobs ≤ t'.mem.completedJobs) ∧
      (t.mem.running = true →
        ∃ s' : TrackerState,
          ProcessingTracker.stop t M = .ok { mem := s', file := some s' } ∧
          s'.completedJobs = t.mem.completedJobs + 1 ∧
          (s'.complete = true ↔ s'.completedJobs = n)) := by
  have hchar := start_fresh_state hstart hfresh
  subst hchar
  have base_inv : RunInv M n
      { complete := false, encounteredError := false, running := true,
        managerId := M, jobCount := n, completedJobs := 0 } := by
    unfold RunInv
    dsimp only
    refine ⟨rfl, by omega, ?_, fun _ => ⟨rfl, rfl, by omega⟩⟩
    simp only [Bool.false_eq_true, false_iff]
    omega
  have key : ∀ t,
      RunReach M { mem := { complete := false, encounteredError := false, running := true,
                            managerId := M, jobCount := n, completedJobs := 0 },
                   file := some { complete := false, encounteredError := false, running := true,
                                  managerId := M, jobCount := n, completedJobs := 0 } } t →
      t.file = some t.mem ∧ RunInv M n t.mem := by
    intro t h
    induction h with
    | refl => exact ⟨rfl, base_inv⟩
    | tail hr hs ih => exact runStep_preserves ih.1 ih.2 hs
  intro t hreach
  obtain ⟨hsync, hinv⟩ := key t hreach
  have hload : t.loadState = t := loadState_eq_self hsync
  obtain ⟨hjc, hle, hiff, hrun⟩ := hinv
  refine ⟨⟨hsync, ⟨hjc, hle, hiff, hrun⟩, ?_⟩, fun t' hs => runStep_mono hsync hs, ?_⟩
  · dsimp only [ProcessingTracker.isComplete]
    rw [hload]
    exact hiff
  · intro hr
    obtain ⟨hmid, hcomp, hlt⟩ := hrun hr
    by_cases hfin : t.mem.jobCount ≤ t.mem.completedJobs + 1
    · refine ⟨_, stop_shape_final M hload hr hmid.symm hfin, rfl, ?_⟩
      dsimp only
      exact ⟨fun _ => by omega, fun _ => rfl⟩
    · refine ⟨_, stop_shape_mid M hload hr hmid.symm hfin, rfl, ?_⟩
      dsimp only
      rw [hcomp]
      simp only [Bool.false_eq_true, false_iff]
      omega

/-- Witness for C2 at the run started by `start(5, 3)` on a fresh tracker,
observed right after the state-changing start. -/
theorem claim_C2_witness :
    (⟨⟨false, false, true, 5, 3, 0⟩, some ⟨false, false, true, 5, 3, 0⟩⟩ :
      ProcessingTracker).file =
        some (⟨⟨false, false, true, 5, 3, 0⟩, some ⟨false, false, true, 5, 3, 0⟩⟩ :
          ProcessingTracker).mem ∧
    RunInv 5 3 (⟨⟨false, false, true, 5, 3, 0⟩, some ⟨false, false, true, 5, 3, 0⟩⟩ :
      ProcessingTracker).mem ∧
    ((ProcessingTracker.isComplete
        ⟨⟨false, false, true, 5, 3, 0⟩, some ⟨false, false, true, 5, 3, 0⟩⟩).1 = true ↔
      (⟨⟨false, false, true, 5, 3, 0⟩, some ⟨false, false, true, 5, 3, 0⟩⟩ :
        ProcessingTracker).mem.completedJobs = 3) :=
  (claim_C2 5 3 (by decide) ⟨defaultTrackerState, none⟩
    ⟨⟨false, false, true, 5, 3, 0⟩, some ⟨false, false, true, 5, 3, 0⟩⟩ rfl rfl
    ⟨⟨false, false, true, 5, 3, 0⟩, some ⟨false, false, true, 5, 3, 0⟩⟩
    (RunReach.refl _)).1

/-- Counterexample to C2 as stated, at the state-changing `start(5, 0)` on
a fresh tracker (job count `0`): immediately after the start,
`is_complete` returns `false` although the persisted completed-jobs counter
equals the persisted job count, and after a single `stop(5)` the persisted
completed-jobs counter strictly exceeds the persisted job count. -/
theorem claim_C2_cex :
    (ProcessingTracker.isComplete
      (ProcessingTracker.start ⟨defaultTrackerState, none⟩ 5 0).tracker).1 = false ∧
    (ProcessingTracker.start ⟨defaultTrackerState, none⟩ 5 0).tracker.mem.completedJobs =
      (ProcessingTracker.start ⟨defaultTrackerState, none⟩ 5 0).tracker.mem.jobCount ∧
    (ProcessingTracker.stop
        (ProcessingTracker.start ⟨defaultTrackerState, none⟩ 5 0).tracker 5).tracker.mem.jobCount <
      (ProcessingTracker.stop
        (ProcessingTracker.start ⟨defaultTrackerState, none⟩ 5 0).tracker 5).tracker.mem.completedJobs := by
  decide

theorem cycle_stage_incomplete {p : ProcessingPipeline} (env : ServerEnv)
    {js : List (Nat × Nat)}
    (hstage : p.pipelineStage ≠ 0) (hlook : p.jobs.lookup p.pipelineStage = some js)
    (h : js.any (fun e => !env.jobComplete e.1) = true) :
    runtimeCycle p env = some (p, []) := by
  simp [runtimeCycle, hstage, hlook, h]

theorem cycle_error_complete {p : ProcessingPipeline} (env : ServerEnv)
    {js : List (Nat × Nat)}
    (hstage : p.pipelineStage ≠ 0) (hlook : p.jobs.lookup p.pipelineStage = some js)
    (h : js.any (fun e => !env.jobComplete e.1) = false)
    (herr : env.tracker.encounteredError = true) :
    runtimeCycle p env =
      some ({ p with pipelineStatus := .failed },
            [ServerAction.pullTracker, ServerAction.removeLocalTemp]) := by
  simp [runtimeCycle, hstage, hlook, h, herr]

theorem cycle_complete_branch {p : ProcessingPipeline} (env : ServerEnv)
    {js : List (Nat × Nat)}
    (hstage : p.pipelineStage ≠ 0) (hlook : p.jobs.lookup p.pipelineStage = some js)
    (h : js.any (fun e => !env.jobComplete e.1) = false)
    (herr : env.tracker.encounteredError = false)
    (hdone : env.tracker.complete = true) :
    runtimeCycle p env =
      some ({ p with pipelineStatus := .succeeded },
            if p.keepJobLogs = false
            then [ServerAction.pullTracker, ServerAction.removeLocalTemp] ++
                 removeAllLogActions p.jobs
            else [ServerAction.pullTracker, ServerAction.removeLocalTemp]) := by
  by_cases hkeep : p.keepJobLogs = false
  · simp [runtimeCycle, hstage, hlook, h, herr, hdone, hkeep]
  · simp [runtimeCycle, hstage, hlook, h, herr, hdone, hkeep]

theorem cycle_running_branch {p : ProcessingPipeline} (env : ServerEnv)
    {js js2 : List (Nat × Nat)}
    (hstage : p.pipelineStage ≠ 0) (hlook : p.jobs.lookup p.pipelineStage = some js)
    (h : js.any (fun e => !env.jobComplete e.1) = false)
    (herr : env.tracker.encounteredError = false)
    (hdone : env.tracker.complete = false)
    (hrun : env.tracker.running = true)
    (hlook2 : p.jobs.lookup (p.pipelineStage + 1) = some js2) :
    runtimeCycle p env =
      some ({ p with pipelineStage := p.pipelineStage + 1 },
            ServerAction.pullTracker :: submitActions js2) := by
  simp [runtimeCycle, hstage, hlook, h, herr, hdone, hrun, hlook2]

theorem cycle_aborted_branch {p : ProcessingPipeline} (env : ServerEnv)
    {js : List (Nat × Nat)}
    (hstage : p.pipelineStage ≠ 0) (hlook : p.jobs.lookup p.pipelineStage = some js)
    (h : js.any (fun e => !env.jobComplete e.1) = false)
    (herr : env.tracker.encounteredError = false)
    (hdone : env.tracker.complete = false)
    (hrun : env.tracker.running = false) :
    runtimeCycle p env =
      some ({ p with pipelineStatus := .aborted }, [ServerAction.pullTracker]) := by
  simp [runtimeCycle, hstage, hlook, h, herr, hdone, hrun]

theorem cycle_first_incomplete {p : ProcessingPipeline} (env : ServerEnv)
    {js1 : List (Nat × Nat)}
    (hstage : p.pipelineStage = 0) (hlook : p.jobs.lookup 1 = some js1)
    (h : js1.any (fun e => !env.jobComplete e.1) = true) :
    runtimeCycle p env = some ({ p with pipelineStage := 1 }, submitActions js1) := by
  simp [runtimeCycle, hstage, hlook, h]

theorem cycle_first_complete {p : ProcessingPipeline} (env : ServerEnv)
    {js1 js2 : List (Nat × Nat)}
    (hstage : p.pipelineStage = 0) (hlook : p.jobs.lookup 1 = some js1)
    (hlook2 : p.jobs.lookup 2 = some js2)
    (h : js1.any (fun e => !env.jobComplete e.1) = false) :
    ∃ p' acts, runtimeCycle p env =
      some (p', submitActions js1 ++ ServerAction.pullTracker :: acts) := by
  by_cases herr : env.tracker.encounteredError = true
  · exact ⟨{ p with pipelineStatus := .failed, pipelineStage := 1 },
      [ServerAction.removeLocalTemp],
      by simp [runtimeCycle, hstage, hlook, h, herr]⟩
  · have herr' : env.tracker.encounteredError = false := by simpa using herr
    by_cases hdone : env.tracker.complete = true
    · by_cases hkeep : p.keepJobLogs = false
      · exact ⟨{ p with pipelineStatus := .succeeded, pipelineStage := 1 },
          ServerAction.removeLocalTemp :: removeAllLogActions p.jobs,
          by simp [runtimeCycle, hstage, hlook, h, herr', hdone, hkeep]⟩
      · exact ⟨{ p with pipelineStatus := .succeeded, pipelineStage := 1 },
          [ServerAction.removeLocalTemp],
          by simp [runtimeCycle, hstage, hlook, h, herr', hdone, hkeep]⟩
    · have hdone' : env.tracker.complete = false := by simpa using hdone
      by_cases hrun : env.tracker.running = true
      · exact ⟨{ p with pipelineStage := 2 }, submitActions js2,
          by simp [runtimeCycle, hstage, hlook, h, herr', hdone', hrun, hlook2]⟩
      · have hrun' : env.tracker.running = false := by simpa using hrun
        exact ⟨{ p with pipelineStatus := .aborted, pipelineStage := 1 }, [],
          by simp [runtimeCycle, hstage, hlook, h, herr', hdone', hrun']⟩

theorem cycles_error_keep (js1 js2 : List (Nat × Nat)) (keep : Bool) :
    ∀ envs : List ServerEnv, (∀ e ∈ envs, e.tracker.encounteredError = true) →
    ∃ acts, runtimeCycles
        { jobs := [(1, js1), (2, js2)], keepJobLogs := keep,
          pipelineStatus := .failed, pipelineStage := 1 } envs =
      some ({ jobs := [(1, js1), (2, js2)], keepJobLogs := keep,
              pipelineStatus := .failed, pipelineStage := 1 }, acts) ∧
      ∀ a ∈ acts, (∀ j, a ≠ ServerAction.submitJob j) ∧
                  (∀ d, a ≠ ServerAction.removeRemote d) := by
  intro envs
  induction envs with
  | nil => exact fun _ => ⟨[], rfl, by simp⟩
  | cons env rest ih =>
      intro herrs
      obtain ⟨acts, hacts, hclean⟩ := ih fun e he => herrs e (List.mem_cons_of_mem _ he)
      have herr : env.tracker.encounteredError = true := herrs env (List.mem_cons_self _ _)
      by_cases hc : js1.any (fun e => !env.jobComplete e.1) = true
      · have h1 := cycle_stage_incomplete (p :=
          { jobs := [(1, js1), (2, js2)], keepJobLogs := keep,
            pipelineStatus := .failed, pipelineStage := 1 }) env (by simp) rfl hc
        exact ⟨acts, by simp [runtimeCycles, h1, hacts], hclean⟩
      · have hc' : js1.any (fun e => !env.jobComplete e.1) = false := by simpa using hc
        have h1 := cycle_error_complete (p :=
          { jobs := [(1, js1), (2, js2)], keepJobLogs := keep,
            pipelineStatus := .failed, pipelineStage := 1 }) env (by simp) rfl hc' herr
        refine ⟨[ServerAction.pullTracker, ServerAction.removeLocalTemp] ++ acts,
          by simp [runtimeCycles, h1, hacts], ?_⟩
        intro a ha
        rcases List.mem_append.mp ha with hmem | hmem
        · simp only [List.mem_cons, List.mem_singleton] at hmem
          rcases hmem with rfl | hmem
          · exact ⟨fun j => by simp, fun d => by simp⟩
          · rcases hmem with rfl | hmem
            · exact ⟨fun j => by simp, fun d => by simp⟩
            · exact absurd hmem (by simp)
        · exact hclean a hmem

/-- C3: for every two-stage pipeline whose stage-1 jobs have been submitted
(stage cursor `1`), once all stage-1 jobs report scheduler-complete and the
pulled tracker reports `encountered_error = true`, `runtime_cycle` sets the
pipeline status to `failed`, and across that call and every later call in
which the pulled tracker still reports the error, the pipeline never
submits any job (in particular none of stage 2's) and never removes any
remote job log directory, regardless of the `keep_job_logs` setting. -/
theorem claim_C3 (js1 js2 : List (Nat × Nat)) (keep : Bool) (st : ProcessingStatus)
    (env0 : ServerEnv) (envs : List ServerEnv)
    (hjobs : ∀ e ∈ js1, env0.jobComplete e.1 = true)
    (herr0 : env0.tracker.encounteredError = true)
    (herrs : ∀ e ∈ envs, e.tracker.encounteredError = true) :
    ∃ acts : List ServerAction,
      runtimeCycles
          { jobs := [(1, js1), (2, js2)], keepJobLogs := keep,
            pipelineStatus := st, pipelineStage := 1 } (env0 :: envs) =
        some ({ jobs := [(1, js1), (2, js2)], keepJobLogs := keep,
                pipelineStatus := .failed, pipelineStage := 1 }, acts) ∧
      ∀ a ∈ acts, (∀ j, a ≠ ServerAction.submitJob j) ∧
                  (∀ d, a ≠ ServerAction.removeRemote d) := by
  have hcomplete : js1.any (fun e => !env0.jobComplete e.1) = false := by
    rw [List.any_eq_false]
    intro e he
    simp [hjobs e he]
  have h1 := cycle_error_complete (p :=
    { jobs := [(1, js1), (2, js2)], keepJobLogs := keep,
      pipelineStatus := st, pipelineStage := 1 }) env0 (by simp) rfl hcomplete herr0
  obtain ⟨acts, hacts, hclean⟩ := cycles_error_keep js1 js2 keep envs herrs
  refine ⟨[ServerAction.pullTracker, ServerAction.removeLocalTemp] ++ acts,
    by simp [runtimeCycles, h1, hacts], ?_⟩
  intro a ha
  rcases List.mem_append.mp ha with hmem | hmem
  · simp only [List.mem_cons, List.mem_singleton] at hmem
    rcases hmem with rfl | hmem
    · exact ⟨fun j => by simp, fun d => by simp⟩
    · rcases hmem with rfl | hmem
      · exact ⟨fun j => by simp, fun d => by simp⟩
      · exact absurd hmem (by simp)
  · exact hclean a hmem

/-- Witness for C3: a concrete two-stage pipeline whose single stage-1 job
is scheduler-complete while the pulled tracker reports an error, cycled
twice. -/
theorem claim_C3_witness :
    ∃ acts : List ServerAction,
      runtimeCycles
          { jobs := [(1, [(10, 100)]), (2, [(20, 200)])], keepJobLogs := false,
            pipelineStatus := .running, pipelineStage := 1 }
          [{ jobComplete := fun _ => true,
             tracker := { complete := false, encounteredError := true, running := false,
                          managerId := -1, jobCount := 1, completedJobs := 0 } },
           { jobComplete := fun _ => true,
             tracker := { complete := false, encounteredError := true, running := false,
                          managerId := -1, jobCount := 1, completedJobs := 0 } }] =
        some ({ jobs := [(1, [(10, 100)]), (2, [(20, 200)])], keepJobLogs := false,
                pipelineStatus := .failed, pipelineStage := 1 }, acts) ∧
      ∀ a ∈ acts, (∀ j, a ≠ ServerAction.submitJob j) ∧
                  (∀ d, a ≠ ServerAction.removeRemote d) :=
  claim_C3 [(10, 100)] [(20, 200)] false .running
    { jobComplete := fun _ => true,
      tracker := { complete := false, encounteredError := true, running := false,
                   managerId := -1, jobCount := 1, completedJobs := 0 } }
    [{ jobComplete := fun _ => true,
       tracker := { complete := false, encounteredError := true, running := false,
                    managerId := -1, jobCount := 1, completedJobs := 0 } }]
    (by decide) rfl (by decide)

/-- Counterexample to C6 as stated: on a two-stage pipeline, under a remote
behavior in which every stage-1 job already reports scheduler-complete and
the pulled tracker reports running, the very first `runtime_cycle` call
(stage cursor `0`) does not return after submitting stage 1: in the same
call it pulls the tracker file and submits stage 2's job, leaving the stage
cursor at `2`. -/
theorem claim_C6_cex :
    runtimeCycle
        { jobs := [(1, [(10, 100)]), (2, [(20, 200)])], keepJobLogs := false,
          pipelineStatus := .running, pipelineStage := 0 }
        { jobComplete := fun _ => true,
          tracker := { complete := false, encounteredError := false, running := true,
                       managerId := 5, jobCount := 2, completedJobs := 0 } } =
      some ({ jobs := [(1, [(10, 100)]), (2, [(20, 200)])], keepJobLogs := false,
              pipelineStatus := .running, pipelineStage := 2 },
            [ServerAction.submitJob 10, ServerAction.pullTracker,
             ServerAction.submitJob 20]) ∧
    ServerAction.pullTracker ∈
      [ServerAction.submitJob 10, ServerAction.pullTracker, ServerAction.submitJob 20] ∧
    ServerAction.submitJob 20 ∈
      [ServerAction.submitJob 10, ServerAction.pullTracker, ServerAction.submitJob 20] := by
  decide

/-- C6 (amended): the very first `runtime_cycle` call (stage cursor `0`)
submits exactly stage 1's jobs and sets the cursor to `1`, and it returns
without pulling the tracker file only when at least one stage-1 job is not
yet scheduler-complete; when every stage-1 job already reports
scheduler-complete, the same first call goes on to pull the tracker file
after the stage-1 submissions (and may dispatch further in that call). -/
theorem claim_C6 (p : ProcessingPipeline) (env : ServerEnv)
    (js1 js2 : List (Nat × Nat))
    (hstage : p.pipelineStage = 0) (hlook : p.jobs.lookup 1 = some js1) :
    ((∃ e ∈ js1, env.jobComplete e.1 = false) →
      runtimeCycle p env = some ({ p with pipelineStage := 1 }, submitActions js1)) ∧
    (p.jobs.lookup 2 = some js2 →
      (∀ e ∈ js1, env.jobComplete e.1 = true) →
      ∃ p' acts, runtimeCycle p env =
        some (p', submitActions js1 ++ ServerAction.pullTracker :: acts)) := by
  constructor
  · intro hsome
    obtain ⟨e, he, hce⟩ := hsome
    have h : js1.any (fun e => !env.jobComplete e.1) = true :=
      List.any_eq_true.mpr ⟨e, he, by simp [hce]⟩
    exact cycle_first_incomplete env hstage hlook h
  · intro hlook2 hall
    have h : js1.any (fun e => !env.jobComplete e.1) = false := by
      rw [List.any_eq_false]
      intro e he
      simp [hall e he]
    exact cycle_first_complete env hstage hlook hlook2 h

/-- Witness for C6: the first call on a concrete two-stage pipeline — with
an outstanding stage-1 job it returns right after submitting stage 1; with
stage-1 already scheduler-complete it pulls the tracker in the same
call. -/
theorem claim_C6_witness :
    runtimeCycle
        { jobs := [(1, [(10, 100)]), (2, [(20, 200)])], keepJobLogs := false,
          pipelineStatus := .running, pipelineStage := 0 }
        { jobComplete := fun _ => false,
          tracker := defaultTrackerState } =
      some ({ jobs := [(1, [(10, 100)]), (2, [(20, 200)])], keepJobLogs := false,
              pipelineStatus := .running, pipelineStage := 1 },
            submitActions [(10, 100)]) ∧
    (∃ p' acts, runtimeCycle
        { jobs := [(1, [(10, 100)]), (2, [(20, 200)])], keepJobLogs := false,
          pipelineStatus := .running, pipelineStage := 0 }
        { jobComplete := fun _ => true,
          tracker := defaultTrackerState } =
      some (p', submitActions [(10, 100)] ++ ServerAction.pullTracker :: acts)) :=
  ⟨(claim_C6
      { jobs := [(1, [(10, 100)]), (2, [(20, 200)])], keepJobLogs := false,
        pipelineStatus := .running, pipelineStage := 0 }
      { jobComplete := fun _ => false, tracker := defaultTrackerState }
      [(10, 100)] [(20, 200)] rfl rfl).1 ⟨(10, 100), by decide, rfl⟩,
   (claim_C6
      { jobs := [(1, [(10, 100)]), (2, [(20, 200)])], keepJobLogs := false,
        pipelineStatus := .running, pipelineStage := 0 }
      { jobComplete := fun _ => true, tracker := defaultTrackerState }
      [(10, 100)] [(20, 200)] rfl rfl).2 rfl (by decide)⟩

/-- Counterexample to C7 as stated: a two-stage pipeline sits at stage `1`
(not its last stage), all current-stage jobs are scheduler-terminal and the
pulled tracker reports complete; `runtime_cycle` does not increment the
stage and does not submit stage 2's job — it terminates the pipeline with
status `succeeded` (and, with retention disabled, even removes the remote
log directories of both stages, including the never-executed stage 2). -/
theorem claim_C7_cex :
    runtimeCycle
        { jobs := [(1, [(10, 100)]), (2, [(20, 200)])], keepJobLogs := false,
          pipelineStatus := .running, pipelineStage := 1 }
        { jobComplete := fun _ => true,
          tracker := { complete := true, encounteredError := false, running := false,
                       managerId := -1, jobCount := 1, completedJobs := 1 } } =
      some ({ jobs := [(1, [(10, 100)]), (2, [(20, 200)])], keepJobLogs := false,
              pipelineStatus := .succeeded, pipelineStage := 1 },
            [ServerAction.pullTracker, ServerAction.removeLocalTemp,
             ServerAction.removeRemote 100, ServerAction.removeRemote 200]) ∧
    ServerAction.submitJob 20 ∉
      [ServerAction.pullTracker, ServerAction.removeLocalTemp,
       ServerAction.removeRemote 100, ServerAction.removeRemote 200] := by
  decide

/-- C7 (amended): in any `runtime_cycle` call in which all current-stage
jobs are scheduler-terminal and the pulled tracker reports no error and
complete, the pipeline status is set to `succeeded` regardless of whether
the current stage is the pipeline's last — the stage cursor is not
incremented and no further jobs are submitted — and the remote job log
directories of every stage are deleted exactly when log retention
(`keep_job_logs`) is disabled.  (Advancing to the next stage happens only
in the tracker-still-running case.) -/
theorem claim_C7 (p : ProcessingPipeline) (env : ServerEnv) (js : List (Nat × Nat))
    (hstage : p.pipelineStage ≠ 0)
    (hlook : p.jobs.lookup p.pipelineStage = some js)
    (hcomp : ∀ e ∈ js, env.jobComplete e.1 = true)
    (herr : env.tracker.encounteredError = false)
    (hdone : env.tracker.complete = true) :
    runtimeCycle p env =
      some ({ p with pipelineStatus := .succeeded },
            if p.keepJobLogs = false
            then [ServerAction.pullTracker, ServerAction.removeLocalTemp] ++
                 removeAllLogActions p.jobs
            else [ServerAction.pullTracker, ServerAction.removeLocalTemp]) := by
  have h : js.any (fun e => !env.jobComplete e.1) = false := by
    rw [List.any_eq_false]
    intro e he
    simp [hcomp e he]
  exact cycle_complete_branch env hstage hlook h herr hdone

/-- Witness for C7: the amended behavior evaluated on the concrete
pipeline of the counterexample. -/
theorem claim_C7_witness :
    runtimeCycle
        { jobs := [(1, [(10, 100)]), (2, [(20, 200)])], keepJobLogs := true,
          pipelineStatus := .running, pipelineStage := 1 }
        { jobComplete := fun _ => true,
          tracker := { complete := true, encounteredError := false, running := false,
                       managerId := -1, jobCount := 1, completedJobs := 1 } } =
      some ({ jobs := [(1, [(10, 100)]), (2, [(20, 200)])], keepJobLogs := true,
              pipelineStatus := .succeeded, pipelineStage := 1 },
            [ServerAction.pullTracker, ServerAction.removeLocalTemp]) :=
  claim_C7 _ _ [(10, 100)] (by decide) rfl (by decide) rfl rfl

/-- C10: `runtime_cycle` has no terminal-status guard.  For every pipeline
whose status is already `failed`, `succeeded` or `aborted` (stage cursor at
least `1`), if all current-stage jobs report scheduler-complete the call
still pulls the remote tracker file and re-dispatches on its flags; in
particular, if the freshly pulled tracker reports running, the call
increments the stage cursor and submits that stage's jobs (leaving the
terminal status in place), and if the tracker reports complete, the call
overwrites the previously terminal status with `succeeded`. -/
theorem claim_C10 (p : ProcessingPipeline) (env : ServerEnv)
    (js js2 : List (Nat × Nat))
    (hterm : p.pipelineStatus = .failed ∨ p.pipelineStatus = .succeeded ∨
      p.pipelineStatus = .aborted)
    (hstage : p.pipelineStage ≠ 0)
    (hlook : p.jobs.lookup p.pipelineStage = some js)
    (hlook2 : p.jobs.lookup (p.pipelineStage + 1) = some js2)
    (hcomp : ∀ e ∈ js, env.jobComplete e.1 = true) :
    (∃ p' acts, runtimeCycle p env = some (p', ServerAction.pullTracker :: acts)) ∧
    (env.tracker.encounteredError = false → env.tracker.complete = false →
      env.tracker.running = true →
      runtimeCycle p env =
        some ({ p with pipelineStage := p.pipelineStage + 1 },
              ServerAction.pullTracker :: submitActions js2)) ∧
    (env.tracker.encounteredError = false → env.tracker.complete = true →
      ∃ acts, runtimeCycle p env =
        some ({ p with pipelineStatus := .succeeded }, acts)) := by
  have h : js.any (fun e => !env.jobComplete e.1) = false := by
    rw [List.any_eq_false]
    intro e he
    simp [hcomp e he]
  refine ⟨?_, ?_, ?_⟩
  · by_cases herr : env.tracker.encounteredError = true
    · exact ⟨_, [ServerAction.removeLocalTemp], cycle_error_complete env hstage hlook h herr⟩
    · have herr' : env.tracker.encounteredError = false := by simpa using herr
      by_cases hdone : env.tracker.complete = true
      · by_cases hkeep : p.keepJobLogs = false
        · refine ⟨{ p with pipelineStatus := .succeeded },
            ServerAction.removeLocalTemp :: removeAllLogActions p.jobs, ?_⟩
          rw [cycle_complete_branch env hstage hlook h herr' hdone, if_pos hkeep]
          simp
        · refine ⟨{ p with pipelineStatus := .succeeded },
            [ServerAction.removeLocalTemp], ?_⟩
          rw [cycle_complete_branch env hstage hlook h herr' hdone, if_neg hkeep]
      · have hdone' : env.tracker.complete = false := by simpa using hdone
        by_cases hrun : env.tracker.running = true
        · exact ⟨_, submitActions js2,
            cycle_running_branch env hstage hlook h herr' hdone' hrun hlook2⟩
        · have hrun' : env.tracker.running = false := by simpa using hrun
          exact ⟨_, [], cycle_aborted_branch env hstage hlook h herr' hdone' hrun'⟩
  · intro herr hdone hrun
    exact cycle_running_branch env hstage hlook h herr hdone hrun hlook2
  · intro herr hdone
    refine ⟨_, cycle_complete_branch env hstage hlook h herr hdone⟩

/-- Witness for C10: a two-stage pipeline already marked `failed` at stage
`1`, whose stage-1 job is scheduler-complete while the freshly pulled
tracker reports running: the call pulls the tracker, increments the stage
cursor to `2` and submits stage 2's job. -/
theorem claim_C10_witness :
    (∃ p' acts, runtimeCycle
        { jobs := [(1, [(10, 100)]), (2, [(20, 200)])], keepJobLogs := false,
          pipelineStatus := .failed, pipelineStage := 1 }
        { jobComplete := fun _ => true,
          tracker := { complete := false, encounteredError := false, running := true,
                       managerId := 5, jobCount := 2, completedJobs := 1 } } =
      some (p', ServerAction.pullTracker :: acts)) ∧
    runtimeCycle
        { jobs := [(1, [(10, 100)]), (2, [(20, 200)])], keepJobLogs := false,
          pipelineStatus := .failed, pipelineStage := 1 }
        { jobComplete := fun _ => true,
          tracker := { complete := false, encounteredError := false, running := true,
                       managerId := 5, jobCount := 2, completedJobs := 1 } } =
      some ({ jobs := [(1, [(10, 100)]), (2, [(20, 200)])], keepJobLogs := false,
              pipelineStatus := .failed, pipelineStage := 2 },
            ServerAction.pullTracker :: submitActions [(20, 200)]) :=
  ⟨(claim_C10
      { jobs := [(1, [(10, 100)]), (2, [(20, 200)])], keepJobLogs := false,
        pipelineStatus := .failed, pipelineStage := 1 }
      { jobComplete := fun _ => true,
        tracker := { complete := false, encounteredError := false, running := true,
                     managerId := 5, jobCount := 2, completedJobs := 1 } }
      [(10, 100)] [(20, 200)] (Or.inl rfl) (by decide) rfl rfl (by decide)).1,
   (claim_C10
      { jobs := [(1, [(10, 100)]), (2, [(20, 200)])], keepJobLogs := false,
        pipelineStatus := .failed, pipelineStage := 1 }
      { jobComplete := fun _ => true,
        tracker := { complete := false, encounteredError := false, running := true,
                     managerId := 5, jobCount := 2, completedJobs := 1 } }
      [(10, 100)] [(20, 200)] (Or.inl rfl) (by decide) rfl rfl
      (by decide)).2.1 rfl rfl rfl⟩

